import Mathlib

/- Verification of the TouchJoystick virtual joystick: a shallow embedding of
the touch-event handler of the compiled JavaScript (`TouchJoystick.js`) and of
the TypeScript source (`TouchJoystick.ts`), covering the touch state machine,
the offset arithmetic and the visual clamping, together with theorems about
`hndTouchEvent`.

Modelling conventions: JavaScript numbers are reals; touch identifiers are
integers; an absent `changedTouches` property is `Option.none`; the style
value `""` (cleared) is `Option.none`; an access that would throw a
`TypeError` (first element of an empty list, field of an undefined
`touchStart`) makes the handler return `Except.error ()`. The handler takes
the geometry queried during the event (bounding rectangles of the parent,
outer and inner elements) as an explicit argument, returns the new private
state of the class, the new style state of the two elements, and the list of
dispatched events in order. -/

noncomputable section

namespace TouchJoystick

/-- A 2-D vector of JavaScript numbers, modelled as reals. -/
structure Vec where
  x : ℝ
  y : ℝ

/-- A DOMRect as returned by `getBoundingClientRect`. -/
structure Rect where
  left : ℝ
  top : ℝ
  width : ℝ
  height : ℝ

/-- The rectangles the handler queries while processing one event: bounding
parent, outer element and inner element. -/
structure Geometry where
  bcrParent : Rect
  bcrOuter : Rect
  bcrInner : Rect

/-- JoystickPositioning. -/
inductive Positioning where
  | fixed
  | floating
  deriving DecidableEq

/-- JoystickLimitation. -/
inductive Limitation where
  | none
  | x
  | y
  deriving DecidableEq

/-- The `handle` options record: `limit` and `round`. -/
structure Handle where
  limit : ℝ
  round : Bool

/-- JoystickOptions of the compiled JavaScript, `limitToParentElement`
included. -/
structure Options where
  positioning : Positioning
  handle : Handle
  limitInput : Limitation
  following : Bool
  invertY : Bool
  limitToParentElement : Bool

/-- `defaultOptions` of the compiled JavaScript. -/
def defaultOptions : Options where
  following := false
  handle := { limit := 1, round := true }
  limitInput := Limitation.none
  positioning := Positioning.fixed
  invertY := false
  limitToParentElement := true

/-- One entry of a TouchList: `clientX`/`clientY` and the touch identifier. -/
structure Touch where
  clientX : ℝ
  clientY : ℝ
  identifier : ℤ

/-- The event target, abstracted to which element the touch hit. -/
inductive Target where
  | outer
  | inner
  | parent
  | other
  deriving DecidableEq

/-- The three touch event types the constructor subscribes to. -/
inductive TouchType where
  | touchstart
  | touchmove
  | touchend
  deriving DecidableEq

/-- A touch event as seen by the handler: its type, its `changedTouches`
list (`Option.none` models an absent property) and its target. -/
structure TouchEvt where
  type : TouchType
  changedTouches : Option (List Touch)
  target : Target

/-- The mutable private fields of the Joystick class:
`#currentlyActiveTouchId` (0 when no touch is tracked), `#touchStart`
(undefined until first set) and `#currentValue`. -/
structure JState where
  currentlyActiveTouchId : ℤ
  touchStart : Option Vec
  currentValue : Vec

/-- The style state the handler writes: `left`/`top` of the outer and inner
elements (`Option.none` models the cleared style `""`) and whether the outer
element carries the `active` class. -/
structure Styles where
  outerLeft : Option ℝ
  outerTop : Option ℝ
  innerLeft : Option ℝ
  innerTop : Option ℝ
  outerActive : Bool

/-- Notifications dispatched to listeners; `change` and `released` carry the
current value as it is at dispatch time. -/
inductive Emitted where
  | pressed
  | change (v : Vec)
  | released (v : Vec)

/-- `Math.sign`. -/
def jsign (a : ℝ) : ℝ :=
  if 0 < a then 1 else if a < 0 then -1 else 0

/-- `normalizeToMaxScale`: Euclidean rescaling of a vector to magnitude at
most `scale`; the vector is returned unchanged when its magnitude does not
exceed `scale`. -/
def normalizeToMaxScale (v : Vec) (scale : ℝ) : Vec :=
  let magnitude := Real.sqrt (v.x ^ 2 + v.y ^ 2)
  if magnitude ≤ scale then v
  else { x := v.x / magnitude * scale, y := v.y / magnitude * scale }

/-- The Euclidean magnitude of a vector. -/
def mag (v : Vec) : ℝ :=
  Real.sqrt (v.x ^ 2 + v.y ^ 2)

/-- `positionJoystick`: moves the outer element so that its centre is
`(x, y)` in parent coordinates, clears the inner element styles and records
`(x, y)` as the new `touchStart`. -/
def positionJoystick (g : Geometry) (s : JState) (st : Styles) (x y : ℝ) :
    JState × Styles :=
  ({ s with touchStart := some { x := x, y := y } },
   { st with
      outerLeft := some (x - g.bcrOuter.width / 2),
      innerLeft := Option.none,
      outerTop := some (y - g.bcrOuter.height / 2),
      innerTop := Option.none })

/-- The raw offset after `limitInput` is applied: `limitInput = x` zeroes
the x component, `limitInput = y` zeroes the y component. -/
def limitedOffset (li : Limitation) (v : Vec) : Vec :=
  if li = Limitation.x then { x := 0, y := v.y }
  else if li = Limitation.y then { x := v.x, y := 0 }
  else v

/-- The touch offset from `touchStart`, with `limitInput` applied and then
scaled by half the outer element size, so that 1 is the outline of the outer
element. -/
def rawScaledOffset (li : Limitation) (g : Geometry) (rel ts : Vec) : Vec :=
  let off := limitedOffset li { x := rel.x - ts.x, y := rel.y - ts.y }
  { x := off.x / (g.bcrOuter.width / 2), y := off.y / (g.bcrOuter.height / 2) }

/-- The visual clamping applied to the scaled offset before pixel mapping:
Euclidean normalisation to the handle limit when `round` is set, then a
per-axis clamp to `[-limit, limit]`. -/
def visualOffset (round : Bool) (limit : ℝ) (v : Vec) : Vec :=
  let w := if round then normalizeToMaxScale v limit else v
  { x := max (min w.x limit) (-limit), y := max (min w.y limit) (-limit) }

/-- The `touchstart` branch of `hndTouchEvent`, entered while no touch is
active. Fixed positioning accepts the event only when its target is the
outer element and sets `touchStart` to the outer element's centre; floating
positioning repositions the joystick to the touch point. On acceptance the
`active` class is set, the identifier is recorded and `pressed` is
dispatched. -/
def startStep (pos : Positioning) (g : Geometry) (s : JState) (st : Styles)
    (t0 : Touch) (rel : Vec) (tgt : Target) : JState × Styles × List Emitted :=
  if pos = Positioning.fixed then
    if tgt ≠ Target.outer then (s, st, [])
    else
      let s1 := { s with
        touchStart := some
          { x := g.bcrOuter.left + g.bcrOuter.width / 2 - g.bcrParent.left,
            y := g.bcrOuter.top + g.bcrOuter.height / 2 - g.bcrParent.top } }
      ({ s1 with currentlyActiveTouchId := t0.identifier },
       { st with outerActive := true }, [Emitted.pressed])
  else
    let pst := positionJoystick g s st rel.x rel.y
    ({ pst.1 with currentlyActiveTouchId := t0.identifier },
     { pst.2 with outerActive := true }, [Emitted.pressed])

/-- The `touchend` branch of `hndTouchEvent`, entered with a matching
identifier: clears the active touch, resets the inner element styles (and,
in fixed positioning, the outer element styles), marks inactive, dispatches
`released` with the current value and then resets the current value to
`(0, 0)`. -/
def endStep (pos : Positioning) (s : JState) (st : Styles) :
    JState × Styles × List Emitted :=
  let s1 := { s with currentlyActiveTouchId := 0 }
  let st1 := { st with innerTop := Option.none, innerLeft := Option.none }
  let st2 :=
    if pos = Positioning.fixed then
      { st1 with outerTop := Option.none, outerLeft := Option.none }
    else st1
  let st3 := { st2 with outerActive := false }
  ({ s1 with currentValue := { x := 0, y := 0 } }, st3,
   [Emitted.released s.currentValue])

/-- The `touchmove` branch of `hndTouchEvent` of the compiled JavaScript,
entered with a matching identifier and a defined `touchStart`: computes the
scaled offset, optionally repositions the joystick to follow the finger
(clamped to the parent when `limitToParentElement` is set), places the inner
handle, applies `invertY` to the reported value and dispatches `change`. -/
def moveStep (o : Options) (g : Geometry) (s : JState) (st : Styles)
    (rel ts : Vec) : JState × Styles × List Emitted :=
  let off := rawScaledOffset o.limitInput g rel ts
  let sst :=
    if o.following = true ∧
        (o.handle.limit < |off.x| ∨ o.handle.limit < |off.y|) then
      let newPosX :=
        max 0 (|off.x| - o.handle.limit) * jsign off.x * (g.bcrOuter.width / 2)
          + ts.x
      let newPosY :=
        max 0 (|off.y| - o.handle.limit) * jsign off.y * (g.bcrOuter.height / 2)
          + ts.y
      let np :=
        if o.limitToParentElement = true then
          (max (g.bcrOuter.width / 2)
            (min (g.bcrParent.width - g.bcrOuter.width / 2) newPosX),
           max (g.bcrOuter.height / 2)
            (min (g.bcrParent.height - g.bcrOuter.height / 2) newPosY))
        else (newPosX, newPosY)
      positionJoystick g s st np.1 np.2
    else (s, st)
  let vis := visualOffset o.handle.round o.handle.limit off
  let visualOffsetX :=
    vis.x * g.bcrOuter.width / 2 + (g.bcrOuter.width - g.bcrInner.width) / 2
  let visualOffsetY :=
    vis.y * g.bcrOuter.height / 2 + (g.bcrOuter.height - g.bcrInner.height) / 2
  let st2 := { sst.2 with
    innerLeft := some visualOffsetX, innerTop := some visualOffsetY }
  let offY := if o.invertY = true then -off.y else off.y
  let newValue : Vec := { x := off.x, y := offY }
  ({ sst.1 with currentValue := newValue }, st2, [Emitted.change newValue])

/-- `hndTouchEvent` of the compiled JavaScript: returns without effect when
`changedTouches` is absent, errors on the first-element access when it is
present but empty, and otherwise dispatches on the event type and the
identifier guards (the sentinel for "no active touch" is identifier 0). -/
def hndTouchEvent (o : Options) (g : Geometry) (s : JState) (st : Styles)
    (e : TouchEvt) : Except Unit (JState × Styles × List Emitted) :=
  match e.changedTouches with
  | Option.none => Except.ok (s, st, [])
  | some [] => Except.error ()
  | some (t0 :: _) =>
    let rel : Vec :=
      { x := t0.clientX - g.bcrParent.left, y := t0.clientY - g.bcrParent.top }
    if e.type = TouchType.touchstart ∧ s.currentlyActiveTouchId = 0 then
      Except.ok (startStep o.positioning g s st t0 rel e.target)
    else if e.type = TouchType.touchend ∧
        s.currentlyActiveTouchId = t0.identifier then
      Except.ok (endStep o.positioning s st)
    else if e.type = TouchType.touchmove ∧
        s.currentlyActiveTouchId = t0.identifier then
      match s.touchStart with
      | Option.none => Except.error ()
      | some ts => Except.ok (moveStep o g s st rel ts)
    else
      Except.ok (s, st, [])

end TouchJoystick

namespace TouchJoystickTS

open TouchJoystick

/-- JoystickOptions of the TypeScript source: same fields as the compiled
JavaScript except that `limitToParentElement` does not exist. -/
structure Options where
  positioning : Positioning
  handle : Handle
  limitInput : Limitation
  following : Bool
  invertY : Bool

/-- `defaultOptions` of the TypeScript source. -/
def defaultOptions : Options where
  following := false
  handle := { limit := 1, round := true }
  limitInput := Limitation.none
  positioning := Positioning.fixed
  invertY := false

/-- Projection of the JavaScript options onto the TypeScript options,
dropping `limitToParentElement`. -/
def ofJS (o : TouchJoystick.Options) : Options where
  positioning := o.positioning
  handle := o.handle
  limitInput := o.limitInput
  following := o.following
  invertY := o.invertY

/-- The `touchmove` branch of `hndTouchEvent` of the TypeScript source: as
the compiled JavaScript, but the follower position is never clamped to the
parent element. -/
def moveStep (o : Options) (g : Geometry) (s : JState) (st : Styles)
    (rel ts : Vec) : JState × Styles × List Emitted :=
  let off := rawScaledOffset o.limitInput g rel ts
  let sst :=
    if o.following = true ∧
        (o.handle.limit < |off.x| ∨ o.handle.limit < |off.y|) then
      let newPosX :=
        max 0 (|off.x| - o.handle.limit) * jsign off.x * (g.bcrOuter.width / 2)
          + ts.x
      let newPosY :=
        max 0 (|off.y| - o.handle.limit) * jsign off.y * (g.bcrOuter.height / 2)
          + ts.y
      positionJoystick g s st newPosX newPosY
    else (s, st)
  let vis := visualOffset o.handle.round o.handle.limit off
  let visualOffsetX :=
    vis.x * g.bcrOuter.width / 2 + (g.bcrOuter.width - g.bcrInner.width) / 2
  let visualOffsetY :=
    vis.y * g.bcrOuter.height / 2 + (g.bcrOuter.height - g.bcrInner.height) / 2
  let st2 := { sst.2 with
    innerLeft := some visualOffsetX, innerTop := some visualOffsetY }
  let offY := if o.invertY = true then -off.y else off.y
  let newValue : Vec := { x := off.x, y := offY }
  ({ sst.1 with currentValue := newValue }, st2, [Emitted.change newValue])

/-- `hndTouchEvent` of the TypeScript source. -/
def hndTouchEvent (o : Options) (g : Geometry) (s : JState) (st : Styles)
    (e : TouchEvt) : Except Unit (JState × Styles × List Emitted) :=
  match e.changedTouches with
  | Option.none => Except.ok (s, st, [])
  | some [] => Except.error ()
  | some (t0 :: _) =>
    let rel : Vec :=
      { x := t0.clientX - g.bcrParent.left, y := t0.clientY - g.bcrParent.top }
    if e.type = TouchType.touchstart ∧ s.currentlyActiveTouchId = 0 then
      Except.ok (startStep o.positioning g s st t0 rel e.target)
    else if e.type = TouchType.touchend ∧
        s.currentlyActiveTouchId = t0.identifier then
      Except.ok (endStep o.positioning s st)
    else if e.type = TouchType.touchmove ∧
        s.currentlyActiveTouchId = t0.identifier then
      match s.touchStart with
      | Option.none => Except.error ()
      | some ts => Except.ok (moveStep o g s st rel ts)
    else
      Except.ok (s, st, [])

end TouchJoystickTS

end

open TouchJoystick

section HelperLemmas

lemma tt_ne₁ : TouchType.touchmove ≠ TouchType.touchstart := by decide

lemma tt_ne₂ : TouchType.touchmove ≠ TouchType.touchend := by decide

lemma tt_ne₃ : TouchType.touchstart ≠ TouchType.touchend := by decide

lemma tt_ne₄ : TouchType.touchstart ≠ TouchType.touchmove := by decide

lemma tt_ne₅ : TouchType.touchend ≠ TouchType.touchstart := by decide

lemma tt_ne₆ : TouchType.touchend ≠ TouchType.touchmove := by decide

lemma li_ne₁ : Limitation.none ≠ Limitation.x := by decide

lemma li_ne₂ : Limitation.none ≠ Limitation.y := by decide

lemma li_ne₃ : Limitation.x ≠ Limitation.y := by decide

lemma li_ne₄ : Limitation.x ≠ Limitation.none := by decide

lemma li_ne₅ : Limitation.y ≠ Limitation.none := by decide

lemma li_ne₆ : Limitation.y ≠ Limitation.x := by decide

lemma tg_ne₁ : Target.inner ≠ Target.outer := by decide

lemma tg_ne₂ : Target.parent ≠ Target.outer := by decide

lemma tg_ne₃ : Target.outer ≠ Target.inner := by decide

lemma pos_ne₁ : Positioning.floating ≠ Positioning.fixed := by decide

lemma pos_ne₂ : Positioning.fixed ≠ Positioning.floating := by decide

lemma change_ne_pressed (v : Vec) : Emitted.change v ≠ Emitted.pressed :=
  fun h => nomatch h

lemma change_ne_released (v w : Vec) : Emitted.change v ≠ Emitted.released w :=
  fun h => nomatch h

/-- The events dispatched by the touchmove branch: exactly one `change`,
carrying the scaled offset computed from the pre-event `touchStart`, with
`invertY` applied to its y component. -/
lemma moveStep_events (o : Options) (g : Geometry) (s : JState) (st : Styles)
    (rel ts : Vec) :
    (moveStep o g s st rel ts).2.2 =
      [Emitted.change
        { x := (rawScaledOffset o.limitInput g rel ts).x,
          y := if o.invertY = true then -(rawScaledOffset o.limitInput g rel ts).y
               else (rawScaledOffset o.limitInput g rel ts).y }] := rfl

/-- The events dispatched by the touchend branch: exactly one `released`
carrying the pre-reset current value. -/
lemma endStep_events (pos : Positioning) (s : JState) (st : Styles) :
    (endStep pos s st).2.2 = [Emitted.released s.currentValue] := rfl

/-- The touchstart branch never dispatches a `change` event. -/
lemma change_not_mem_startStep (pos : Positioning) (g : Geometry) (s : JState)
    (st : Styles) (t0 : Touch) (rel : Vec) (tgt : Target) (v : Vec) :
    Emitted.change v ∉ (startStep pos g s st t0 rel tgt).2.2 := by
  unfold startStep
  split
  · split
    · simp
    · simp [change_ne_pressed]
  · simp [change_ne_pressed]

end HelperLemmas

/-- C5: a touch-begin delivered while a session is Active (the tracked
identifier is nonzero) leaves the whole state — in particular `touchStart`
(the origin point) and `currentlyActiveTouchId` — and the styles unchanged,
and dispatches nothing, whatever the identifier of the new contact is. -/
theorem c5_touchstart_while_active_is_noop (o : Options) (g : Geometry)
    (s : JState) (st : Styles) (e : TouchEvt) (t0 : Touch) (rest : List Touch)
    (ht : e.type = TouchType.touchstart)
    (hc : e.changedTouches = some (t0 :: rest))
    (ha : s.currentlyActiveTouchId ≠ 0) :
    hndTouchEvent o g s st e = Except.ok (s, st, []) := by
  obtain ⟨ty, cts, tg⟩ := e
  dsimp only at ht hc
  subst ht hc
  simp [hndTouchEvent, ha, tt_ne₃, tt_ne₄]

/-- C5 witness: a touch-begin with identifier 7 while touch 3 is active is a
no-op. -/
theorem c5_witness :
    hndTouchEvent defaultOptions
      ⟨⟨0, 0, 200, 200⟩, ⟨0, 0, 100, 100⟩, ⟨40, 40, 20, 20⟩⟩
      ⟨3, some ⟨50, 50⟩, ⟨0, 0⟩⟩
      ⟨Option.none, Option.none, Option.none, Option.none, true⟩
      ⟨TouchType.touchstart, some [⟨60, 60, 7⟩], Target.outer⟩ =
      Except.ok (⟨3, some ⟨50, 50⟩, ⟨0, 0⟩⟩,
        ⟨Option.none, Option.none, Option.none, Option.none, true⟩, []) :=
  c5_touchstart_while_active_is_noop _ _ _ _ _ _ _ rfl rfl (by decide)

/-- C9 (amended): an event whose `changedTouches` property is absent is a
no-op: no error, no state change, no style change, no notification. -/
theorem c9_absent_touches_noop (o : Options) (g : Geometry) (s : JState)
    (st : Styles) (e : TouchEvt) (hc : e.changedTouches = Option.none) :
    hndTouchEvent o g s st e = Except.ok (s, st, []) := by
  obtain ⟨ty, cts, tg⟩ := e
  dsimp only at hc
  subst hc
  simp [hndTouchEvent]

/-- C9 witness: a touch-begin with an absent `changedTouches` property is a
no-op. -/
theorem c9_witness :
    hndTouchEvent defaultOptions
      ⟨⟨0, 0, 200, 200⟩, ⟨0, 0, 100, 100⟩, ⟨40, 40, 20, 20⟩⟩
      ⟨0, Option.none, ⟨0, 0⟩⟩
      ⟨Option.none, Option.none, Option.none, Option.none, false⟩
      ⟨TouchType.touchstart, Option.none, Target.outer⟩ =
      Except.ok (⟨0, Option.none, ⟨0, 0⟩⟩,
        ⟨Option.none, Option.none, Option.none, Option.none, false⟩, []) :=
  c9_absent_touches_noop _ _ _ _ _ rfl

/-- C9 counterexample: an event whose `changedTouches` list is present but
empty is not a no-op — the handler reaches the access to the first changed
touch, which throws (modelled as `Except.error ()`), because the guard
`if (!touches) return` only tests for an absent list, not an empty one. -/
theorem c9_counterexample :
    hndTouchEvent defaultOptions
      ⟨⟨0, 0, 200, 200⟩, ⟨0, 0, 100, 100⟩, ⟨40, 40, 20, 20⟩⟩
      ⟨0, Option.none, ⟨0, 0⟩⟩
      ⟨Option.none, Option.none, Option.none, Option.none, false⟩
      ⟨TouchType.touchstart, some [], Target.outer⟩ = Except.error () := rfl

/-- C2 (code bug): while no session is active (`currentlyActiveTouchId = 0`,
the Inactive state) a touch-move whose touch carries identifier 0 passes the
guard `currentlyActiveTouchId === touches[0].identifier`, because 0 is also
the "no session" sentinel: the handler processes the move, sets the current
value to (5, 0) ≠ (0, 0) and dispatches a `change` notification, where the
claim requires the event to be ignored. The state used here is reachable:
start and end a session with a nonzero identifier, which leaves
`touchStart` set and the id at 0. -/
theorem c2_code_bug_inactive_move_id0_emits :
    hndTouchEvent
      { positioning := Positioning.fixed, handle := { limit := 1, round := false },
        limitInput := Limitation.none, following := false, invertY := false,
        limitToParentElement := true }
      ⟨⟨0, 0, 100, 100⟩, ⟨0, 0, 2, 2⟩, ⟨0, 0, 0, 0⟩⟩
      ⟨0, some ⟨0, 0⟩, ⟨0, 0⟩⟩
      ⟨Option.none, Option.none, Option.none, Option.none, false⟩
      ⟨TouchType.touchmove, some [⟨5, 0, 0⟩], Target.parent⟩ =
      Except.ok (⟨0, some ⟨0, 0⟩, ⟨5, 0⟩⟩,
        ⟨Option.none, Option.none, some 2, some 1, false⟩,
        [Emitted.change ⟨5, 0⟩]) ∧ (5 : ℝ) ≠ 0 := by
  constructor
  · norm_num [hndTouchEvent, moveStep, rawScaledOffset, limitedOffset,
      visualOffset, positionJoystick, jsign, tt_ne₁, tt_ne₂, li_ne₁, li_ne₂]
  · norm_num

/-- C3 (code bug): with `following = true` and Fixed positioning, a
touch-move whose scaled offset (2, 0) exceeds the handle limit 1 does
reposition the origin — `touchStart` moves from (50, 50) to (100, 50) and
the outer element is moved — because the follower branch never checks
`positioning`, although the source documents `following` as working only in
floating mode and the claim forbids any repositioning in Fixed mode. -/
theorem c3_code_bug_following_repositions_in_fixed :
    hndTouchEvent
      { positioning := Positioning.fixed, handle := { limit := 1, round := false },
        limitInput := Limitation.none, following := true, invertY := false,
        limitToParentElement := true }
      ⟨⟨0, 0, 200, 200⟩, ⟨0, 0, 100, 100⟩, ⟨0, 0, 20, 20⟩⟩
      ⟨1, some ⟨50, 50⟩, ⟨0, 0⟩⟩
      ⟨Option.none, Option.none, Option.none, Option.none, true⟩
      ⟨TouchType.touchmove, some [⟨150, 50, 1⟩], Target.outer⟩ =
      Except.ok (⟨1, some ⟨100, 50⟩, ⟨2, 0⟩⟩,
        ⟨some 50, some 0, some 90, some 40, true⟩,
        [Emitted.change ⟨2, 0⟩]) ∧ (100 : ℝ) ≠ 50 := by
  constructor
  · norm_num [hndTouchEvent, moveStep, rawScaledOffset, limitedOffset,
      visualOffset, positionJoystick, jsign, tt_ne₁, tt_ne₂, li_ne₁, li_ne₂]
  · norm_num

/-- C1 counterexample: with `limitInput = x` the handler zeroes the X
component, not the Y component, of the raw offset: a pure vertical movement
of 5 emits `change (0, 5)`, whose Y component is 5 ≠ 0, refuting "every
emitted changed vector has Y = 0 with limitInput x". -/
theorem c1_counterexample :
    hndTouchEvent
      { positioning := Positioning.fixed, handle := { limit := 1, round := false },
        limitInput := Limitation.x, following := false, invertY := false,
        limitToParentElement := true }
      ⟨⟨0, 0, 100, 100⟩, ⟨0, 0, 2, 2⟩, ⟨0, 0, 0, 0⟩⟩
      ⟨1, some ⟨0, 0⟩, ⟨0, 0⟩⟩
      ⟨Option.none, Option.none, Option.none, Option.none, true⟩
      ⟨TouchType.touchmove, some [⟨0, 5, 1⟩], Target.parent⟩ =
      Except.ok (⟨1, some ⟨0, 0⟩, ⟨0, 5⟩⟩,
        ⟨Option.none, Option.none, some 1, some 2, true⟩,
        [Emitted.change ⟨0, 5⟩]) ∧ (5 : ℝ) ≠ 0 := by
  constructor
  · norm_num [hndTouchEvent, moveStep, rawScaledOffset, limitedOffset,
      visualOffset, positionJoystick, jsign, tt_ne₁, tt_ne₂, li_ne₁, li_ne₂]
  · norm_num

/-- C4 counterexample: in Fixed positioning while Inactive, a touch-begin at
client point (50, 50) — inside the outer element's rect, which spans
[0, 100] × [0, 100] — is rejected with no state change and no notification
when the event's target is the inner element, because the code tests
`event.target === outer element` rather than the geometric bounds; so
"accepted whenever the contact point lies within the outer zone's bounds"
is false. -/
theorem c4_counterexample :
    ((0 : ℝ) ≤ 50 ∧ (50 : ℝ) ≤ 0 + 100) ∧
    hndTouchEvent defaultOptions
      ⟨⟨0, 0, 200, 200⟩, ⟨0, 0, 100, 100⟩, ⟨40, 40, 20, 20⟩⟩
      ⟨0, Option.none, ⟨0, 0⟩⟩
      ⟨Option.none, Option.none, Option.none, Option.none, false⟩
      ⟨TouchType.touchstart, some [⟨50, 50, 1⟩], Target.inner⟩ =
      Except.ok (⟨0, Option.none, ⟨0, 0⟩⟩,
        ⟨Option.none, Option.none, Option.none, Option.none, false⟩, []) := by
  constructor
  · norm_num
  · norm_num [hndTouchEvent, startStep, defaultOptions, tg_ne₁]

/-- C1 (amended): every `change` vector emitted by the handler has X = 0
when `limitInput = x`, and Y = 0 when `limitInput = y` — the code zeroes the
axis named by the option, not the opposing one. -/
theorem c1_limitInput_zeroes_named_axis (o : Options) (g : Geometry)
    (s : JState) (st : Styles) (e : TouchEvt) (s' : JState) (st' : Styles)
    (evs : List Emitted) (v : Vec)
    (hw : 0 < g.bcrOuter.width) (hh : 0 < g.bcrOuter.height)
    (hrun : hndTouchEvent o g s st e = Except.ok (s', st', evs))
    (hmem : Emitted.change v ∈ evs) :
    (o.limitInput = Limitation.x → v.x = 0) ∧
    (o.limitInput = Limitation.y → v.y = 0) := by
  obtain ⟨ty, cts, tg⟩ := e
  cases cts with
  | none =>
    simp only [hndTouchEvent, Except.ok.injEq, Prod.mk.injEq] at hrun
    obtain ⟨-, -, h3⟩ := hrun
    rw [← h3] at hmem
    simp at hmem
  | some l =>
    cases l with
    | nil => simp [hndTouchEvent] at hrun
    | cons t0 rest =>
      simp only [hndTouchEvent] at hrun
      split at hrun
      · injection hrun with h'
        have h2 := congrArg (fun p => p.2.2) h'
        dsimp only at h2
        rw [← h2] at hmem
        exact absurd hmem (change_not_mem_startStep _ _ _ _ _ _ _ _)
      · split at hrun
        · injection hrun with h'
          have h2 := congrArg (fun p => p.2.2) h'
          dsimp only at h2
          rw [endStep_events] at h2
          rw [← h2] at hmem
          simp [change_ne_released] at hmem
        · split at hrun
          · cases hts : s.touchStart with
            | none => rw [hts] at hrun; exact absurd hrun (by simp)
            | some ts =>
              rw [hts] at hrun
              injection hrun with h'
              have h2 := congrArg (fun p => p.2.2) h'
              dsimp only at h2
              rw [moveStep_events] at h2
              rw [← h2] at hmem
              simp only [List.mem_singleton, Emitted.change.injEq] at hmem
              subst hmem
              constructor
              · intro hli
                simp [rawScaledOffset, limitedOffset, hli]
              · intro hli
                simp [rawScaledOffset, limitedOffset, hli, li_ne₆]
          · injection hrun with h'
            have h2 := congrArg (fun p => p.2.2) h'
            dsimp only at h2
            rw [← h2] at hmem
            simp at hmem

/-- C1 witness: with `limitInput = x`, a vertical drag emits `change (0, 5)`
and the theorem yields X = 0 for it. -/
theorem c1_witness :
    (({ positioning := Positioning.fixed, handle := { limit := 1, round := false },
        limitInput := Limitation.x, following := false, invertY := false,
        limitToParentElement := true } : Options).limitInput = Limitation.x →
      (⟨0, 5⟩ : Vec).x = 0) ∧
    (({ positioning := Positioning.fixed, handle := { limit := 1, round := false },
        limitInput := Limitation.x, following := false, invertY := false,
        limitToParentElement := true } : Options).limitInput = Limitation.y →
      (⟨0, 5⟩ : Vec).y = 0) :=
  c1_limitInput_zeroes_named_axis
    { positioning := Positioning.fixed, handle := { limit := 1, round := false },
      limitInput := Limitation.x, following := false, invertY := false,
      limitToParentElement := true }
    ⟨⟨0, 0, 100, 100⟩, ⟨0, 0, 2, 2⟩, ⟨0, 0, 0, 0⟩⟩
    ⟨1, some ⟨0, 0⟩, ⟨0, 0⟩⟩
    ⟨Option.none, Option.none, Option.none, Option.none, true⟩
    ⟨TouchType.touchmove, some [⟨0, 5, 1⟩], Target.parent⟩
    ⟨1, some ⟨0, 0⟩, ⟨0, 5⟩⟩
    ⟨Option.none, Option.none, some 1, some 2, true⟩
    [Emitted.change ⟨0, 5⟩] ⟨0, 5⟩
    (by norm_num) (by norm_num)
    (by norm_num [hndTouchEvent, moveStep, rawScaledOffset, limitedOffset,
      visualOffset, positionJoystick, jsign, tt_ne₁, tt_ne₂, li_ne₄])
    (by simp)

/-- C4 (amended): in Fixed positioning while Inactive, a touch-begin is
accepted exactly when the event's target is the outer element itself (the
code tests `event.target === outer element`, not the geometric bounds):
when the target is not the outer element the handler is a no-op; when it is,
`touchStart` is set to the outer zone's centre in parent coordinates,
the identifier is recorded and `pressed` is dispatched. -/
theorem c4_fixed_start_accepts_iff_target_outer (o : Options) (g : Geometry)
    (s : JState) (st : Styles) (e : TouchEvt) (t0 : Touch) (rest : List Touch)
    (hpos : o.positioning = Positioning.fixed)
    (hina : s.currentlyActiveTouchId = 0)
    (ht : e.type = TouchType.touchstart)
    (hc : e.changedTouches = some (t0 :: rest)) :
    (e.target ≠ Target.outer → hndTouchEvent o g s st e = Except.ok (s, st, [])) ∧
    (e.target = Target.outer →
      hndTouchEvent o g s st e = Except.ok
        ({ s with
            touchStart := some
              { x := g.bcrOuter.left + g.bcrOuter.width / 2 - g.bcrParent.left,
                y := g.bcrOuter.top + g.bcrOuter.height / 2 - g.bcrParent.top },
            currentlyActiveTouchId := t0.identifier },
         { st with outerActive := true }, [Emitted.pressed])) := by
  obtain ⟨ty, cts, tg⟩ := e
  dsimp only at ht hc ⊢
  subst ht hc
  constructor
  · intro htgt
    simp [hndTouchEvent, hina, startStep, hpos, htgt]
  · intro htgt
    subst htgt
    simp [hndTouchEvent, hina, startStep, hpos]

/-- C4 witness: with the default (Fixed) options and a touch-begin targeting
the outer element, the session starts with the origin at the outer zone's
centre (50, 50) and identifier 2; targeting the parent instead is a no-op. -/
theorem c4_witness :
    ((⟨TouchType.touchstart, some [⟨50, 50, 2⟩], Target.outer⟩ : TouchEvt).target
        ≠ Target.outer →
      hndTouchEvent defaultOptions
        ⟨⟨0, 0, 200, 200⟩, ⟨0, 0, 100, 100⟩, ⟨40, 40, 20, 20⟩⟩
        ⟨0, Option.none, ⟨0, 0⟩⟩
        ⟨Option.none, Option.none, Option.none, Option.none, false⟩
        ⟨TouchType.touchstart, some [⟨50, 50, 2⟩], Target.outer⟩ =
        Except.ok (⟨0, Option.none, ⟨0, 0⟩⟩,
          ⟨Option.none, Option.none, Option.none, Option.none, false⟩, [])) ∧
    ((⟨TouchType.touchstart, some [⟨50, 50, 2⟩], Target.outer⟩ : TouchEvt).target
        = Target.outer →
      hndTouchEvent defaultOptions
        ⟨⟨0, 0, 200, 200⟩, ⟨0, 0, 100, 100⟩, ⟨40, 40, 20, 20⟩⟩
        ⟨0, Option.none, ⟨0, 0⟩⟩
        ⟨Option.none, Option.none, Option.none, Option.none, false⟩
        ⟨TouchType.touchstart, some [⟨50, 50, 2⟩], Target.outer⟩ =
        Except.ok
          ({ currentlyActiveTouchId := 2,
             touchStart := some { x := 0 + 100 / 2 - 0, y := 0 + 100 / 2 - 0 },
             currentValue := ⟨0, 0⟩ },
           ⟨Option.none, Option.none, Option.none, Option.none, true⟩,
           [Emitted.pressed])) :=
  c4_fixed_start_accepts_iff_target_outer defaultOptions
    ⟨⟨0, 0, 200, 200⟩, ⟨0, 0, 100, 100⟩, ⟨40, 40, 20, 20⟩⟩
    ⟨0, Option.none, ⟨0, 0⟩⟩
    ⟨Option.none, Option.none, Option.none, Option.none, false⟩
    ⟨TouchType.touchstart, some [⟨50, 50, 2⟩], Target.outer⟩
    ⟨50, 50, 2⟩ [] rfl rfl rfl rfl

/-- With `limitToParentElement = false` the JavaScript touchmove branch and
the TypeScript touchmove branch coincide. -/
lemma js_ts_moveStep (c : Options) (g : Geometry) (s : JState) (st : Styles)
    (rel ts : Vec) (h : c.limitToParentElement = false) :
    moveStep c g s st rel ts =
      TouchJoystickTS.moveStep (TouchJoystickTS.ofJS c) g s st rel ts := by
  simp [moveStep, TouchJoystickTS.moveStep, TouchJoystickTS.ofJS, h]

/-- C10 (amended): the TypeScript source implements exactly the compiled
JavaScript with `limitToParentElement = false`: for every such configuration
and every geometry, state, styles and event, the two handlers return the
same state, styles and notifications. With the JavaScript default
`limitToParentElement = true` they diverge (see the counterexample), because
the clamp of the follower origin to the parent exists only in the compiled
JavaScript. -/
theorem c10_ts_equals_js_without_limitToParent (c : Options) (g : Geometry)
    (s : JState) (st : Styles) (e : TouchEvt)
    (h : c.limitToParentElement = false) :
    hndTouchEvent c g s st e =
      TouchJoystickTS.hndTouchEvent (TouchJoystickTS.ofJS c) g s st e := by
  obtain ⟨ty, cts, tg⟩ := e
  cases cts with
  | none => rfl
  | some l =>
    cases l with
    | nil => rfl
    | cons t0 rest =>
      simp only [hndTouchEvent, TouchJoystickTS.hndTouchEvent]
      split_ifs
      · rfl
      · rfl
      · cases s.touchStart with
        | none => rfl
        | some ts => exact congrArg _ (js_ts_moveStep c g s st _ ts h)
      · rfl

/-- C10 counterexample: the TypeScript source and the compiled JavaScript do
not implement the same behaviour. With `following = true` and the
JavaScript-only option `limitToParentElement` at its default `true`, a drag
beyond the handle limit toward the left edge makes the JavaScript clamp the
new origin x to 20 (half the outer width) while the TypeScript moves it to
-30, and the outer element styles differ accordingly. -/
theorem c10_counterexample :
    hndTouchEvent
      { positioning := Positioning.floating, handle := { limit := 1, round := false },
        limitInput := Limitation.none, following := true, invertY := false,
        limitToParentElement := true }
      ⟨⟨0, 0, 100, 100⟩, ⟨0, 0, 40, 40⟩, ⟨0, 0, 0, 0⟩⟩
      ⟨1, some ⟨10, 50⟩, ⟨0, 0⟩⟩
      ⟨Option.none, Option.none, Option.none, Option.none, true⟩
      ⟨TouchType.touchmove, some [⟨-50, 50, 1⟩], Target.parent⟩ =
      Except.ok (⟨1, some ⟨20, 50⟩, ⟨-3, 0⟩⟩,
        ⟨some 0, some 30, some 0, some 20, true⟩,
        [Emitted.change ⟨-3, 0⟩]) ∧
    TouchJoystickTS.hndTouchEvent
      (TouchJoystickTS.ofJS
        { positioning := Positioning.floating, handle := { limit := 1, round := false },
          limitInput := Limitation.none, following := true, invertY := false,
          limitToParentElement := true })
      ⟨⟨0, 0, 100, 100⟩, ⟨0, 0, 40, 40⟩, ⟨0, 0, 0, 0⟩⟩
      ⟨1, some ⟨10, 50⟩, ⟨0, 0⟩⟩
      ⟨Option.none, Option.none, Option.none, Option.none, true⟩
      ⟨TouchType.touchmove, some [⟨-50, 50, 1⟩], Target.parent⟩ =
      Except.ok (⟨1, some ⟨-30, 50⟩, ⟨-3, 0⟩⟩,
        ⟨some (-50), some 30, some 0, some 20, true⟩,
        [Emitted.change ⟨-3, 0⟩]) ∧
    (20 : ℝ) ≠ -30 := by
  refine ⟨?_, ?_, by norm_num⟩
  · norm_num [hndTouchEvent, moveStep, rawScaledOffset, limitedOffset,
      visualOffset, positionJoystick, jsign, tt_ne₁, tt_ne₂, li_ne₁, li_ne₂]
  · norm_num [TouchJoystickTS.hndTouchEvent, TouchJoystickTS.moveStep,
      TouchJoystickTS.ofJS, rawScaledOffset, limitedOffset,
      visualOffset, positionJoystick, jsign, tt_ne₁, tt_ne₂, li_ne₁, li_ne₂]

/-- C10 witness: with `limitToParentElement = false` the two handlers agree
on the drag of the counterexample. -/
theorem c10_witness :
    hndTouchEvent
      { positioning := Positioning.floating, handle := { limit := 1, round := false },
        limitInput := Limitation.none, following := true, invertY := false,
        limitToParentElement := false }
      ⟨⟨0, 0, 100, 100⟩, ⟨0, 0, 40, 40⟩, ⟨0, 0, 0, 0⟩⟩
      ⟨1, some ⟨10, 50⟩, ⟨0, 0⟩⟩
      ⟨Option.none, Option.none, Option.none, Option.none, true⟩
      ⟨TouchType.touchmove, some [⟨-50, 50, 1⟩], Target.parent⟩ =
      TouchJoystickTS.hndTouchEvent
        (TouchJoystickTS.ofJS
          { positioning := Positioning.floating, handle := { limit := 1, round := false },
            limitInput := Limitation.none, following := true, invertY := false,
            limitToParentElement := false })
        ⟨⟨0, 0, 100, 100⟩, ⟨0, 0, 40, 40⟩, ⟨0, 0, 0, 0⟩⟩
        ⟨1, some ⟨10, 50⟩, ⟨0, 0⟩⟩
        ⟨Option.none, Option.none, Option.none, Option.none, true⟩
        ⟨TouchType.touchmove, some [⟨-50, 50, 1⟩], Target.parent⟩ :=
  c10_ts_equals_js_without_limitToParent _ _ _ _ _ rfl


/-- C8: when the follower branch fires (`following = true` and one axis of
the scaled offset exceeds the handle limit) with
`limitToParentElement = true`, and the outer zone fits in the parent, the
origin recorded by the repositioning lies on each axis between half the
outer extent and the parent extent minus half the outer extent, so the outer
zone stays inside the parent; and the `change` notification of the same
event still carries the offset computed from the old origin `ts`, so the
repositioning only affects subsequent events. -/
theorem c8_following_clamped_to_parent (o : Options) (g : Geometry)
    (s : JState) (st : Styles) (rel ts : Vec)
    (hf : o.following = true) (hltp : o.limitToParentElement = true)
    (hpw : g.bcrOuter.width ≤ g.bcrParent.width)
    (hph : g.bcrOuter.height ≤ g.bcrParent.height)
    (hfire : o.handle.limit < |(rawScaledOffset o.limitInput g rel ts).x| ∨
             o.handle.limit < |(rawScaledOffset o.limitInput g rel ts).y|) :
    (∃ p : Vec,
      (moveStep o g s st rel ts).1.touchStart = some p ∧
      g.bcrOuter.width / 2 ≤ p.x ∧
      p.x ≤ g.bcrParent.width - g.bcrOuter.width / 2 ∧
      g.bcrOuter.height / 2 ≤ p.y ∧
      p.y ≤ g.bcrParent.height - g.bcrOuter.height / 2) ∧
    (moveStep o g s st rel ts).2.2 =
      [Emitted.change
        { x := (rawScaledOffset o.limitInput g rel ts).x,
          y := if o.invertY = true then -(rawScaledOffset o.limitInput g rel ts).y
               else (rawScaledOffset o.limitInput g rel ts).y }] := by
  refine ⟨?_, moveStep_events o g s st rel ts⟩
  have hw2 : g.bcrOuter.width / 2 ≤ g.bcrParent.width - g.bcrOuter.width / 2 := by
    linarith
  have hh2 : g.bcrOuter.height / 2 ≤ g.bcrParent.height - g.bcrOuter.height / 2 := by
    linarith
  simp only [moveStep]
  split
  · simp only [positionJoystick]
    refine ⟨_, rfl, ?_, ?_, ?_, ?_⟩
    · exact le_max_left _ _
    · exact max_le hw2 (min_le_left _ _)
    · exact le_max_left _ _
    · exact max_le hh2 (min_le_left _ _)
  · next h => exact absurd ⟨hf, hfire⟩ h

/-- C8 witness: a leftward drag to scaled offset (-3, 0) with the 40-wide
outer zone in a 100-wide parent keeps the repositioned origin inside
[20, 80] on both axes and reports the offset from the old origin. -/
theorem c8_witness :
    (∃ p : Vec,
      (moveStep
        { positioning := Positioning.floating, handle := { limit := 1, round := false },
          limitInput := Limitation.none, following := true, invertY := false,
          limitToParentElement := true }
        ⟨⟨0, 0, 100, 100⟩, ⟨0, 0, 40, 40⟩, ⟨0, 0, 0, 0⟩⟩
        ⟨1, some ⟨10, 50⟩, ⟨0, 0⟩⟩
        ⟨Option.none, Option.none, Option.none, Option.none, true⟩
        ⟨-50, 50⟩ ⟨10, 50⟩).1.touchStart = some p ∧
      40 / 2 ≤ p.x ∧ p.x ≤ 100 - 40 / 2 ∧
      40 / 2 ≤ p.y ∧ p.y ≤ 100 - 40 / 2) ∧
    (moveStep
        { positioning := Positioning.floating, handle := { limit := 1, round := false },
          limitInput := Limitation.none, following := true, invertY := false,
          limitToParentElement := true }
        ⟨⟨0, 0, 100, 100⟩, ⟨0, 0, 40, 40⟩, ⟨0, 0, 0, 0⟩⟩
        ⟨1, some ⟨10, 50⟩, ⟨0, 0⟩⟩
        ⟨Option.none, Option.none, Option.none, Option.none, true⟩
        ⟨-50, 50⟩ ⟨10, 50⟩).2.2 =
      [Emitted.change
        { x := (rawScaledOffset Limitation.none
            ⟨⟨0, 0, 100, 100⟩, ⟨0, 0, 40, 40⟩, ⟨0, 0, 0, 0⟩⟩ ⟨-50, 50⟩ ⟨10, 50⟩).x,
          y := (rawScaledOffset Limitation.none
            ⟨⟨0, 0, 100, 100⟩, ⟨0, 0, 40, 40⟩, ⟨0, 0, 0, 0⟩⟩ ⟨-50, 50⟩ ⟨10, 50⟩).y }] :=
  c8_following_clamped_to_parent
    { positioning := Positioning.floating, handle := { limit := 1, round := false },
      limitInput := Limitation.none, following := true, invertY := false,
      limitToParentElement := true }
    ⟨⟨0, 0, 100, 100⟩, ⟨0, 0, 40, 40⟩, ⟨0, 0, 0, 0⟩⟩
    ⟨1, some ⟨10, 50⟩, ⟨0, 0⟩⟩
    ⟨Option.none, Option.none, Option.none, Option.none, true⟩
    ⟨-50, 50⟩ ⟨10, 50⟩ rfl rfl (by norm_num) (by norm_num)
    (Or.inl (by norm_num [rawScaledOffset, limitedOffset, li_ne₁]))

lemma abs_x_le_mag (v : Vec) : |v.x| ≤ mag v := by
  unfold mag
  rw [← Real.sqrt_sq_eq_abs]
  exact Real.sqrt_le_sqrt (le_add_of_nonneg_right (sq_nonneg v.y))

lemma abs_y_le_mag (v : Vec) : |v.y| ≤ mag v := by
  unfold mag
  rw [← Real.sqrt_sq_eq_abs]
  exact Real.sqrt_le_sqrt (le_add_of_nonneg_left (sq_nonneg v.x))

/-- A vector of magnitude at most `L` is unchanged by the per-axis clamp to
`[-L, L]`. -/
lemma clamp_of_mag_le (L : ℝ) (w : Vec) (h : mag w ≤ L) :
    (⟨max (min w.x L) (-L), max (min w.y L) (-L)⟩ : Vec) = w := by
  have hx := abs_le.mp (le_trans (abs_x_le_mag w) h)
  have hy := abs_le.mp (le_trans (abs_y_le_mag w) h)
  rw [min_eq_left hx.2, max_eq_left hx.1, min_eq_left hy.2, max_eq_left hy.1]

lemma normalize_of_le (v : Vec) (L : ℝ) (h : mag v ≤ L) :
    normalizeToMaxScale v L = v := by
  have h' : Real.sqrt (v.x ^ 2 + v.y ^ 2) ≤ L := h
  simp only [normalizeToMaxScale]
  rw [if_pos h']

lemma normalize_of_gt (v : Vec) (L : ℝ) (h : L < mag v) :
    normalizeToMaxScale v L = ⟨v.x / mag v * L, v.y / mag v * L⟩ := by
  have h' : ¬ Real.sqrt (v.x ^ 2 + v.y ^ 2) ≤ L := not_le.mpr h
  simp only [normalizeToMaxScale]
  rw [if_neg h']
  rfl

lemma mag_smul (c x y : ℝ) : mag ⟨c * x, c * y⟩ = |c| * mag ⟨x, y⟩ := by
  unfold mag
  dsimp only
  rw [show (c * x) ^ 2 + (c * y) ^ 2 = c ^ 2 * (x ^ 2 + y ^ 2) by ring,
    Real.sqrt_mul (sq_nonneg c), Real.sqrt_sq_eq_abs]

lemma visualOffset_true (L : ℝ) (v : Vec) :
    visualOffset true L v =
      ⟨max (min (normalizeToMaxScale v L).x L) (-L),
       max (min (normalizeToMaxScale v L).y L) (-L)⟩ := by
  simp [visualOffset]

/-- C6: with `handleRound = true` and positive `handleLimit = L`, the visual
clamped vector (the result of `normalizeToMaxScale` followed by the per-axis
clamp, as computed before pixel mapping) has Euclidean magnitude at most
`L`; it equals the scaled offset `v` exactly when `|v| ≤ L` (so the zero
vector is unchanged); and when `|v| > L` it has magnitude exactly `L` and is
a positive multiple of `v`, preserving the direction. -/
theorem c6_round_visual_clamp (L : ℝ) (hL : 0 < L) (v : Vec) :
    mag (visualOffset true L v) ≤ L ∧
    (visualOffset true L v = v ↔ mag v ≤ L) ∧
    (L < mag v →
      mag (visualOffset true L v) = L ∧
      ∃ c : ℝ, 0 < c ∧ visualOffset true L v = ⟨c * v.x, c * v.y⟩) := by
  by_cases hm : mag v ≤ L
  · have h1 : visualOffset true L v = v := by
      rw [visualOffset_true, normalize_of_le v L hm]
      exact clamp_of_mag_le L v hm
    exact ⟨by rw [h1]; exact hm, ⟨fun _ => hm, fun _ => h1⟩,
      fun hlt => absurd hlt (not_lt.mpr hm)⟩
  · push_neg at hm
    have hm0 : 0 < mag v := lt_trans hL hm
    have hw : normalizeToMaxScale v L = ⟨L / mag v * v.x, L / mag v * v.y⟩ := by
      rw [normalize_of_gt v L hm]
      have e1 : v.x / mag v * L = L / mag v * v.x := by ring
      have e2 : v.y / mag v * L = L / mag v * v.y := by ring
      rw [e1, e2]
    have hmagw : mag (normalizeToMaxScale v L) = L := by
      rw [hw, mag_smul, abs_of_pos (div_pos hL hm0)]
      have hvv : mag ⟨v.x, v.y⟩ = mag v := rfl
      rw [hvv, div_mul_cancel₀ L (ne_of_gt hm0)]
    have hclamp : visualOffset true L v = normalizeToMaxScale v L := by
      rw [visualOffset_true]
      exact clamp_of_mag_le L _ (le_of_eq hmagw)
    refine ⟨?_, ?_, fun _ => ⟨?_, ?_⟩⟩
    · rw [hclamp, hmagw]
    · constructor
      · intro heq
        have h2 : mag (visualOffset true L v) = mag v := congrArg mag heq
        rw [hclamp, hmagw] at h2
        exact absurd h2 (ne_of_lt hm)
      · intro hle
        exact absurd hle (not_le.mpr hm)
    · rw [hclamp, hmagw]
    · exact ⟨L / mag v, div_pos hL hm0, by rw [hclamp, hw]⟩

/-- C6 witness: the theorem instantiated at limit 1 and scaled offset
(3, 4), a vector of magnitude 5 > 1. -/
theorem c6_witness :
    mag (visualOffset true 1 ⟨3, 4⟩) ≤ 1 ∧
    (visualOffset true 1 ⟨3, 4⟩ = ⟨3, 4⟩ ↔ mag ⟨3, 4⟩ ≤ 1) ∧
    (1 < mag (⟨3, 4⟩ : Vec) →
      mag (visualOffset true 1 ⟨3, 4⟩) = 1 ∧
      ∃ c : ℝ, 0 < c ∧ visualOffset true 1 ⟨3, 4⟩ = ⟨c * 3, c * 4⟩) :=
  c6_round_visual_clamp 1 (by norm_num) ⟨3, 4⟩

lemma ite_bool_true {α : Sort _} (a b : α) :
    (if (true : Bool) = true then a else b) = a := rfl

lemma ite_bool_false {α : Sort _} (a b : α) :
    (if (false : Bool) = true then a else b) = b := rfl

/-- Toggling `invertY` leaves the styles and the x component of the reported
value of a processed touchmove unchanged and negates the reported y. -/
lemma moveStep_invertY (o : Options) (g : Geometry) (s : JState) (st : Styles)
    (rel ts : Vec) (s1 : JState) (st1 : Styles) (v1 : Vec)
    (h : moveStep { o with invertY := false } g s st rel ts =
      (s1, st1, [Emitted.change v1])) :
    moveStep { o with invertY := true } g s st rel ts =
      ({ s1 with currentValue := ⟨v1.x, -v1.y⟩ }, st1,
        [Emitted.change ⟨v1.x, -v1.y⟩]) := by
  simp only [moveStep, ite_bool_true, ite_bool_false] at h ⊢
  simp only [Prod.mk.injEq, List.cons.injEq, Emitted.change.injEq, and_true] at h
  obtain ⟨h1, h2, h3⟩ := h
  subst h1
  subst h2
  subst h3
  rfl

/-- C7: for a touch-move event, running the handler with `invertY = true`
and with `invertY = false` from the same state yields the same styles (the
same inner-handle pixel placement) and the same state except that the
reported `change` vector and stored current value have the same X and a
negated Y; a move the `invertY = false` run ignores is equally ignored. -/
theorem c7_invertY_only_flips_reported_y (o : Options) (g : Geometry)
    (s : JState) (st : Styles) (e : TouchEvt)
    (ht : e.type = TouchType.touchmove) :
    (∀ (s1 : JState) (st1 : Styles) (v1 : Vec),
      hndTouchEvent { o with invertY := false } g s st e =
        Except.ok (s1, st1, [Emitted.change v1]) →
      hndTouchEvent { o with invertY := true } g s st e =
        Except.ok ({ s1 with currentValue := ⟨v1.x, -v1.y⟩ }, st1,
          [Emitted.change ⟨v1.x, -v1.y⟩])) ∧
    (hndTouchEvent { o with invertY := false } g s st e = Except.ok (s, st, []) →
     hndTouchEvent { o with invertY := true } g s st e = Except.ok (s, st, [])) := by
  obtain ⟨ty, cts, tg⟩ := e
  dsimp only at ht
  subst ht
  cases cts with
  | none =>
    constructor
    · intro s1 st1 v1 h1
      simp [hndTouchEvent] at h1
    · intro h1
      rfl
  | some l =>
    cases l with
    | nil =>
      constructor
      · intro s1 st1 v1 h1
        simp [hndTouchEvent] at h1
      · intro h1
        simp [hndTouchEvent] at h1
    | cons t0 rest =>
      by_cases hid : s.currentlyActiveTouchId = t0.identifier
      · cases hts : s.touchStart with
        | none =>
          have hred : ∀ b : Bool, hndTouchEvent { o with invertY := b } g s st
              ⟨TouchType.touchmove, some (t0 :: rest), tg⟩ = Except.error () := by
            intro b
            simp [hndTouchEvent, hid, hts, tt_ne₄, tt_ne₆]
          constructor
          · intro s1 st1 v1 h1
            rw [hred false] at h1
            exact absurd h1 (by simp)
          · intro h1
            rw [hred false] at h1
            exact absurd h1 (by simp)
        | some ts =>
          have hred : ∀ b : Bool, hndTouchEvent { o with invertY := b } g s st
              ⟨TouchType.touchmove, some (t0 :: rest), tg⟩ =
              Except.ok (moveStep { o with invertY := b } g s st
                ⟨t0.clientX - g.bcrParent.left, t0.clientY - g.bcrParent.top⟩ ts) := by
            intro b
            simp [hndTouchEvent, hid, hts, tt_ne₄, tt_ne₆]
          constructor
          · intro s1 st1 v1 h1
            rw [hred false] at h1
            rw [hred true]
            injection h1 with hmov
            exact congrArg Except.ok (moveStep_invertY o g s st _ ts s1 st1 v1 hmov)
          · intro h1
            rw [hred false] at h1
            injection h1 with hmov
            have h2 := congrArg (fun p => p.2.2) hmov
            dsimp only at h2
            rw [moveStep_events] at h2
            simp at h2
      · have hred : ∀ b : Bool, hndTouchEvent { o with invertY := b } g s st
            ⟨TouchType.touchmove, some (t0 :: rest), tg⟩ = Except.ok (s, st, []) := by
          intro b
          simp [hndTouchEvent, hid, tt_ne₄, tt_ne₆]
        constructor
        · intro s1 st1 v1 h1
          rw [hred false] at h1
          simp at h1
        · intro h1
          exact hred true

/-- C7 witness: the theorem instantiated at a concrete configuration, state
and touch-move event. -/
theorem c7_witness :
    (∀ (s1 : JState) (st1 : Styles) (v1 : Vec),
      hndTouchEvent
        { ({ positioning := Positioning.fixed, handle := { limit := 1, round := false },
             limitInput := Limitation.none, following := false, invertY := false,
             limitToParentElement := true } : Options) with invertY := false }
        ⟨⟨0, 0, 100, 100⟩, ⟨0, 0, 2, 2⟩, ⟨0, 0, 0, 0⟩⟩
        ⟨1, some ⟨0, 0⟩, ⟨0, 0⟩⟩
        ⟨Option.none, Option.none, Option.none, Option.none, true⟩
        ⟨TouchType.touchmove, some [⟨3, 4, 1⟩], Target.parent⟩ =
        Except.ok (s1, st1, [Emitted.change v1]) →
      hndTouchEvent
        { ({ positioning := Positioning.fixed, handle := { limit := 1, round := false },
             limitInput := Limitation.none, following := false, invertY := false,
             limitToParentElement := true } : Options) with invertY := true }
        ⟨⟨0, 0, 100, 100⟩, ⟨0, 0, 2, 2⟩, ⟨0, 0, 0, 0⟩⟩
        ⟨1, some ⟨0, 0⟩, ⟨0, 0⟩⟩
        ⟨Option.none, Option.none, Option.none, Option.none, true⟩
        ⟨TouchType.touchmove, some [⟨3, 4, 1⟩], Target.parent⟩ =
        Except.ok ({ s1 with currentValue := ⟨v1.x, -v1.y⟩ }, st1,
          [Emitted.change ⟨v1.x, -v1.y⟩])) ∧
    (hndTouchEvent
        { ({ positioning := Positioning.fixed, handle := { limit := 1, round := false },
             limitInput := Limitation.none, following := false, invertY := false,
             limitToParentElement := true } : Options) with invertY := false }
        ⟨⟨0, 0, 100, 100⟩, ⟨0, 0, 2, 2⟩, ⟨0, 0, 0, 0⟩⟩
        ⟨1, some ⟨0, 0⟩, ⟨0, 0⟩⟩
        ⟨Option.none, Option.none, Option.none, Option.none, true⟩
        ⟨TouchType.touchmove, some [⟨3, 4, 1⟩], Target.parent⟩ =
        Except.ok (⟨1, some ⟨0, 0⟩, ⟨0, 0⟩⟩,
          ⟨Option.none, Option.none, Option.none, Option.none, true⟩, []) →
     hndTouchEvent
        { ({ positioning := Positioning.fixed, handle := { limit := 1, round := false },
             limitInput := Limitation.none, following := false, invertY := false,
             limitToParentElement := true } : Options) with invertY := true }
        ⟨⟨0, 0, 100, 100⟩, ⟨0, 0, 2, 2⟩, ⟨0, 0, 0, 0⟩⟩
        ⟨1, some ⟨0, 0⟩, ⟨0, 0⟩⟩
        ⟨Option.none, Option.none, Option.none, Option.none, true⟩
        ⟨TouchType.touchmove, some [⟨3, 4, 1⟩], Target.parent⟩ =
        Except.ok (⟨1, some ⟨0, 0⟩, ⟨0, 0⟩⟩,
          ⟨Option.none, Option.none, Option.none, Option.none, true⟩, [])) :=
  c7_invertY_only_flips_reported_y
    { positioning := Positioning.fixed, handle := { limit := 1, round := false },
      limitInput := Limitation.none, following := false, invertY := false,
      limitToParentElement := true }
    ⟨⟨0, 0, 100, 100⟩, ⟨0, 0, 2, 2⟩, ⟨0, 0, 0, 0⟩⟩
    ⟨1, some ⟨0, 0⟩, ⟨0, 0⟩⟩
    ⟨Option.none, Option.none, Option.none, Option.none, true⟩
    ⟨TouchType.touchmove, some [⟨3, 4, 1⟩], Target.parent⟩ rfl
